import Mathlib

/-!
# Verification of the NBA data pipeline (ingest / validate / aggregate)

Shallow embedding of the repository's core pipeline:

* `src/models/schema.py` — Pydantic models `TeamInfo` and `Game` (required
  fields, `IntGE0` range constraints, `extra="ignore"`, and the
  `check_team_different` after-validator).
* `src/scripts/validate.py` — per-record validation loop, error
  classification by substring match, the `flatten` function, the clean-table
  and quality-report phase.
* `src/scripts/ingest.py` — paginated fetch loop with 429 handling,
  inter-page sleeps and the `MAX_PAGES` cap.
* `src/scripts/compute_indicators.py` — pandas group-by aggregations
  (win counts, defensive averages).

Raw JSON records are modelled by the inductive `JValue`; Python `dict`s are
association lists with first-match lookup (JSON objects in this data have
unique keys, so this coincides with Python's dict semantics).
-/

set_option autoImplicit false

namespace NBAPipeline

/-- A JSON value as produced by `json.load` (floats do not occur in the
fields the pipeline reads, so they are not modelled). -/
inductive JValue where
  | null
  | bool (b : Bool)
  | int (n : Int)
  | str (s : String)
  | arr (xs : List JValue)
  | obj (fields : List (String × JValue))

/-- `d.get(k)` on a Python dict modelled as an association list: the value at
the first occurrence of key `k`, or `none` (Python `None`) if absent. -/
def dictGet : List (String × JValue) → String → Option JValue
  | [], _ => none
  | (k', v) :: fs, k => if k' = k then some v else dictGet fs k

/-- Python's substring test `needle in hay` on character lists. -/
def charsContain (needle : List Char) : List Char → Bool
  | [] => needle.isEmpty
  | c :: rest => needle.isPrefixOf (c :: rest) || charsContain needle rest

/-- Python's `sub in hay` for strings. -/
def strContainsSub (hay sub : String) : Bool :=
  charsContain sub.data hay.data

/-- A failure raised by `Game.model_validate` (Pydantic `ValidationError`),
modelled fail-fast: the first failing field is reported.  Pydantic collects
all field errors, but the pipeline only inspects `str(e)` for one fixed
substring and counts one error per record, so this difference is
unobservable to the validator script. -/
inductive VErr where
  | missing (loc : String)
  | intType (loc : String)
  | strType (loc : String)
  | boolType (loc : String)
  | dateType (loc : String)
  | datetimeType (loc : String)
  | ge0 (loc : String)
  | modelType
  | teamType (loc : String)
  | valueError (msg : String)
deriving DecidableEq, Repr

/-- The message text `str(e)` of a `ValidationError`, following Pydantic v2's
templates (header line, location line, message line).  Only the presence or
absence of the classifier substring matters downstream. -/
def renderVErr : VErr → String
  | .missing loc => "1 validation error for Game\n" ++ loc ++ "\n  Field required"
  | .intType loc => "1 validation error for Game\n" ++ loc ++ "\n  Input should be a valid integer"
  | .strType loc => "1 validation error for Game\n" ++ loc ++ "\n  Input should be a valid string"
  | .boolType loc => "1 validation error for Game\n" ++ loc ++ "\n  Input should be a valid boolean"
  | .dateType loc => "1 validation error for Game\n" ++ loc ++ "\n  Input should be a valid date"
  | .datetimeType loc =>
      "1 validation error for Game\n" ++ loc ++ "\n  Input should be a valid datetime"
  | .ge0 loc =>
      "1 validation error for Game\n" ++ loc ++ "\n  Input should be greater than or equal to 0"
  | .modelType => "1 validation error for Game\n  Input should be a valid dictionary or instance of Game"
  | .teamType loc =>
      "1 validation error for Game\n" ++ loc ++
        "\n  Input should be a valid dictionary or instance of TeamInfo"
  | .valueError msg => "1 validation error for Game\n  Value error, " ++ msg

/-- The numeric value of a non-empty all-digit character list. -/
def digitsVal : List Char → Option Nat
  | [] => none
  | cs =>
    cs.foldl
      (fun acc c => acc.bind (fun n => if c.isDigit then some (n * 10 + (c.toNat - 48)) else none))
      (some 0)

/-- Integer parsing of a decimal string (optional leading minus), as
Python's `int(...)` coercion applies it to game fields. -/
def strToInt (s : String) : Option Int :=
  match s.data with
  | '-' :: rest => (digitsVal rest).map (fun n => -(n : Int))
  | cs => (digitsVal cs).map (fun n => (n : Int))

/-- `s[:n]` on a Python string (slicing counts code points, as `List Char`
does). -/
def strTake (s : String) (n : Nat) : String :=
  String.mk (s.data.take n)

/-- Pydantic v2 lax-mode validation of an `int` field: `int` values pass,
numeric strings are coerced, booleans are rejected. -/
def pyInt : JValue → Option Int
  | .int n => some n
  | .str s => strToInt s
  | _ => none

/-- Pydantic v2 validation of a `str` field (no coercion from other types). -/
def pyStr : JValue → Option String
  | .str s => some s
  | _ => none

/-- Pydantic v2 validation of a `bool` field (string/number coercions for
booleans are not exercised by this data and are not modelled). -/
def pyBool : JValue → Option Bool
  | .bool b => some b
  | _ => none

/-- A calendar date as stored by the `date` field. -/
structure SDate where
  year : Nat
  month : Nat
  day : Nat
deriving DecidableEq, Repr

/-- Split a character list at every dash. -/
def splitDashes : List Char → List (List Char)
  | [] => [[]]
  | c :: rest =>
    if c = '-' then [] :: splitDashes rest
    else
      match splitDashes rest with
      | [] => [[c]]
      | p :: ps => (c :: p) :: ps

/-- Pydantic's ISO `date` parsing restricted to `YYYY-MM-DD` strings, with a
simplified day-range check (1..31 for every month). -/
def parseDate (s : String) : Option SDate :=
  match splitDashes s.data with
  | [ys, ms, ds] =>
    if ys.length == 4 && ms.length == 2 && ds.length == 2 then
      match digitsVal ys, digitsVal ms, digitsVal ds with
      | some y, some m, some d =>
        if 1 ≤ m && m ≤ 12 && 1 ≤ d && d ≤ 31 then some ⟨y, m, d⟩ else none
      | _, _, _ => none
    else none
  | _ => none

/-- Pydantic's ISO `datetime` acceptance check, simplified to: a valid
`YYYY-MM-DD` date, a `T` separator, and a non-empty time part.  The raw
string is stored, since no pipeline stage reads the parsed value. -/
def validDatetime (s : String) : Bool :=
  (parseDate (String.mk (s.data.take 10))).isSome &&
    ((s.data.drop 10).headD ' ' == 'T') && !(s.data.drop 11).isEmpty

/-- `models.schema.TeamInfo`: the validated team object
(`model_config = ConfigDict(extra="ignore")`). -/
structure TeamInfo where
  id : Int
  conference : String
  division : String
  city : String
  name : String
  full_name : String
  abbreviation : String
deriving DecidableEq, Repr

/-- `models.schema.Game`: the validated game object.  `period`,
`home_team_score`, `visitor_team_score` and the optional quarter/overtime
fields carry the `IntGE0` constraint, enforced by the validator below. -/
structure Game where
  id : Int
  date : SDate
  season : Int
  status : String
  period : Int
  time : String
  postseason : Bool
  home_team_score : Int
  visitor_team_score : Int
  datetime : String
  home_q1 : Option Int
  home_q2 : Option Int
  home_q3 : Option Int
  home_q4 : Option Int
  home_ot1 : Option Int
  home_ot2 : Option Int
  home_ot3 : Option Int
  home_timeouts_remaining : Option Int
  home_in_bonus : Option Bool
  visitor_q1 : Option Int
  visitor_q2 : Option Int
  visitor_q3 : Option Int
  visitor_q4 : Option Int
  visitor_ot1 : Option Int
  visitor_ot2 : Option Int
  visitor_ot3 : Option Int
  visitor_timeouts_remaining : Option Int
  visitor_in_bonus : Option Bool
  home_team : TeamInfo
  visitor_team : TeamInfo
deriving DecidableEq, Repr

/-- Validate a required `int` field. -/
def reqInt (fs : List (String × JValue)) (k loc : String) : Except VErr Int :=
  match dictGet fs k with
  | none => .error (.missing loc)
  | some v =>
    match pyInt v with
    | some n => .ok n
    | none => .error (.intType loc)

/-- Validate a required `IntGE0` field (`Field(ge=0)`). -/
def reqIntGE0 (fs : List (String × JValue)) (k loc : String) : Except VErr Int :=
  match reqInt fs k loc with
  | .error e => .error e
  | .ok n => if n < 0 then .error (.ge0 loc) else .ok n

/-- Validate a required `str` field. -/
def reqStr (fs : List (String × JValue)) (k loc : String) : Except VErr String :=
  match dictGet fs k with
  | none => .error (.missing loc)
  | some v =>
    match pyStr v with
    | some s => .ok s
    | none => .error (.strType loc)

/-- Validate a required `bool` field. -/
def reqBool (fs : List (String × JValue)) (k loc : String) : Except VErr Bool :=
  match dictGet fs k with
  | none => .error (.missing loc)
  | some v =>
    match pyBool v with
    | some b => .ok b
    | none => .error (.boolType loc)

/-- Validate a required `date` field. -/
def reqDate (fs : List (String × JValue)) (k loc : String) : Except VErr SDate :=
  match dictGet fs k with
  | none => .error (.missing loc)
  | some v =>
    match pyStr v with
    | some s =>
      match parseDate s with
      | some d => .ok d
      | none => .error (.dateType loc)
    | none => .error (.dateType loc)

/-- Validate a required `datetime` field (the ISO string is stored). -/
def reqDatetime (fs : List (String × JValue)) (k loc : String) : Except VErr String :=
  match dictGet fs k with
  | none => .error (.missing loc)
  | some v =>
    match pyStr v with
    | some s => if validDatetime s then .ok s else .error (.datetimeType loc)
    | none => .error (.datetimeType loc)

/-- Validate an `Optional[IntGE0]` field: absent or `null` yields `None`. -/
def optIntGE0 (fs : List (String × JValue)) (k loc : String) : Except VErr (Option Int) :=
  match dictGet fs k with
  | none => .ok none
  | some .null => .ok none
  | some v =>
    match pyInt v with
    | some n => if n < 0 then .error (.ge0 loc) else .ok (some n)
    | none => .error (.intType loc)

/-- Validate an `Optional[bool]` field: absent or `null` yields `None`. -/
def optBool (fs : List (String × JValue)) (k loc : String) : Except VErr (Option Bool) :=
  match dictGet fs k with
  | none => .ok none
  | some .null => .ok none
  | some v =>
    match pyBool v with
    | some b => .ok (some b)
    | none => .error (.boolType loc)

/-- Validate a nested `TeamInfo` value (`loc` is the embedding field name,
`home_team` or `visitor_team`).  Unknown keys are ignored because the
validator only reads the seven declared fields (`extra="ignore"`). -/
def validateTeam (loc : String) : JValue → Except VErr TeamInfo
  | .obj fs => do
    let id ← reqInt fs "id" (loc ++ ".id")
    let conference ← reqStr fs "conference" (loc ++ ".conference")
    let division ← reqStr fs "division" (loc ++ ".division")
    let city ← reqStr fs "city" (loc ++ ".city")
    let name ← reqStr fs "name" (loc ++ ".name")
    let full_name ← reqStr fs "full_name" (loc ++ ".full_name")
    let abbreviation ← reqStr fs "abbreviation" (loc ++ ".abbreviation")
    return { id, conference, division, city, name, full_name, abbreviation }
  | _ => .error (.teamType loc)

/-- `Game.model_validate`: field validation in declaration order, then the
`check_team_different` after-validator, which raises
`ValueError("Home and visitor team cannot be identical")` when the two
embedded team ids coincide.  Unknown keys are ignored (`extra="ignore"`). -/
def validateGame : JValue → Except VErr Game
  | .obj fs => do
    let id ← reqInt fs "id" "id"
    let date ← reqDate fs "date" "date"
    let season ← reqInt fs "season" "season"
    let status ← reqStr fs "status" "status"
    let period ← reqIntGE0 fs "period" "period"
    let time ← reqStr fs "time" "time"
    let postseason ← reqBool fs "postseason" "postseason"
    let home_team_score ← reqIntGE0 fs "home_team_score" "home_team_score"
    let visitor_team_score ← reqIntGE0 fs "visitor_team_score" "visitor_team_score"
    let datetime ← reqDatetime fs "datetime" "datetime"
    let home_q1 ← optIntGE0 fs "home_q1" "home_q1"
    let home_q2 ← optIntGE0 fs "home_q2" "home_q2"
    let home_q3 ← optIntGE0 fs "home_q3" "home_q3"
    let home_q4 ← optIntGE0 fs "home_q4" "home_q4"
    let home_ot1 ← optIntGE0 fs "home_ot1" "home_ot1"
    let home_ot2 ← optIntGE0 fs "home_ot2" "home_ot2"
    let home_ot3 ← optIntGE0 fs "home_ot3" "home_ot3"
    let home_timeouts_remaining ←
      optIntGE0 fs "home_timeouts_remaining" "home_timeouts_remaining"
    let home_in_bonus ← optBool fs "home_in_bonus" "home_in_bonus"
    let visitor_q1 ← optIntGE0 fs "visitor_q1" "visitor_q1"
    let visitor_q2 ← optIntGE0 fs "visitor_q2" "visitor_q2"
    let visitor_q3 ← optIntGE0 fs "visitor_q3" "visitor_q3"
    let visitor_q4 ← optIntGE0 fs "visitor_q4" "visitor_q4"
    let visitor_ot1 ← optIntGE0 fs "visitor_ot1" "visitor_ot1"
    let visitor_ot2 ← optIntGE0 fs "visitor_ot2" "visitor_ot2"
    let visitor_ot3 ← optIntGE0 fs "visitor_ot3" "visitor_ot3"
    let visitor_timeouts_remaining ←
      optIntGE0 fs "visitor_timeouts_remaining" "visitor_timeouts_remaining"
    let visitor_in_bonus ← optBool fs "visitor_in_bonus" "visitor_in_bonus"
    let home_team ←
      match dictGet fs "home_team" with
      | none => .error (.missing "home_team")
      | some tv => validateTeam "home_team" tv
    let visitor_team ←
      match dictGet fs "visitor_team" with
      | none => .error (.missing "visitor_team")
      | some tv => validateTeam "visitor_team" tv
    if home_team.id = visitor_team.id then
      .error (.valueError "Home and visitor team cannot be identical")
    else
      return { id, date, season, status, period, time, postseason,
               home_team_score, visitor_team_score, datetime,
               home_q1, home_q2, home_q3, home_q4,
               home_ot1, home_ot2, home_ot3,
               home_timeouts_remaining, home_in_bonus,
               visitor_q1, visitor_q2, visitor_q3, visitor_q4,
               visitor_ot1, visitor_ot2, visitor_ot3,
               visitor_timeouts_remaining, visitor_in_bonus,
               home_team, visitor_team }
  | _ => .error .modelType

/-- Serialize an optional integer the way `model_dump_json` does. -/
def jOptInt : Option Int → JValue
  | none => .null
  | some n => .int n

/-- Serialize an optional boolean the way `model_dump_json` does. -/
def jOptBool : Option Bool → JValue
  | none => .null
  | some b => .bool b

/-- Left-pad a numeral to two digits. -/
def pad2 (n : Nat) : String :=
  if n < 10 then "0" ++ toString n else toString n

/-- Left-pad a numeral to four digits (years in this data are 4 digits). -/
def pad4 (n : Nat) : String :=
  if n < 10 then "000" ++ toString n
  else if n < 100 then "00" ++ toString n
  else if n < 1000 then "0" ++ toString n
  else toString n

/-- ISO rendering of a date, as `model_dump_json` emits it. -/
def dateDump (d : SDate) : String :=
  pad4 d.year ++ "-" ++ pad2 d.month ++ "-" ++ pad2 d.day

/-- The JSON object obtained by dumping a validated `TeamInfo` with
`model_dump_json` and reloading it with `json.loads`. -/
def teamDump (t : TeamInfo) : JValue :=
  .obj [("id", .int t.id), ("conference", .str t.conference),
        ("division", .str t.division), ("city", .str t.city),
        ("name", .str t.name), ("full_name", .str t.full_name),
        ("abbreviation", .str t.abbreviation)]

/-- The JSON object obtained by dumping a validated `Game` with
`model_dump_json` and reloading it with `json.loads` (fields in declaration
order; optional fields serialized as `null` when absent). -/
def gameDump (g : Game) : JValue :=
  .obj [("id", .int g.id), ("date", .str (dateDump g.date)),
        ("season", .int g.season), ("status", .str g.status),
        ("period", .int g.period), ("time", .str g.time),
        ("postseason", .bool g.postseason),
        ("home_team_score", .int g.home_team_score),
        ("visitor_team_score", .int g.visitor_team_score),
        ("datetime", .str g.datetime),
        ("home_q1", jOptInt g.home_q1), ("home_q2", jOptInt g.home_q2),
        ("home_q3", jOptInt g.home_q3), ("home_q4", jOptInt g.home_q4),
        ("home_ot1", jOptInt g.home_ot1), ("home_ot2", jOptInt g.home_ot2),
        ("home_ot3", jOptInt g.home_ot3),
        ("home_timeouts_remaining", jOptInt g.home_timeouts_remaining),
        ("home_in_bonus", jOptBool g.home_in_bonus),
        ("visitor_q1", jOptInt g.visitor_q1), ("visitor_q2", jOptInt g.visitor_q2),
        ("visitor_q3", jOptInt g.visitor_q3), ("visitor_q4", jOptInt g.visitor_q4),
        ("visitor_ot1", jOptInt g.visitor_ot1), ("visitor_ot2", jOptInt g.visitor_ot2),
        ("visitor_ot3", jOptInt g.visitor_ot3),
        ("visitor_timeouts_remaining", jOptInt g.visitor_timeouts_remaining),
        ("visitor_in_bonus", jOptBool g.visitor_in_bonus),
        ("home_team", teamDump g.home_team),
        ("visitor_team", teamDump g.visitor_team)]

/-- An uncaught Python exception escaping `scripts/validate.py` (the only
one the script can raise per record is the `AttributeError` from calling
`.get` on a non-dict value). -/
inductive PyExn where
  | attributeError
deriving DecidableEq, Repr

/-- Python attribute access `x.get`: succeeds with the underlying dict when
`x` is a dict, raises `AttributeError` otherwise. -/
def getAttrDict : JValue → Except PyExn (List (String × JValue))
  | .obj fs => .ok fs
  | _ => .error .attributeError

/-- The flat dictionary built by `flatten` in `scripts/validate.py`: twelve
fixed columns, each holding the looked-up value or Python `None`. -/
structure FlatRow where
  game_id : Option JValue
  date : Option JValue
  season : Option JValue
  status : Option JValue
  periode : Option JValue
  postseason : Option JValue
  home_team_id : Option JValue
  home_team_full_name : Option JValue
  home_team_score : Option JValue
  visitor_team_id : Option JValue
  visitor_team_full_name : Option JValue
  visitor_team_score : Option JValue

/-- `flatten(rec)` from `scripts/validate.py`:
`rec.get("home_team", {})` / `rec.get("visitor_team", {})` followed by a
flat dict of twelve `.get` lookups.  Raises `AttributeError` when `rec`
itself, or a present `home_team`/`visitor_team` value, is not a dict. -/
def flatten (rec : JValue) : Except PyExn FlatRow := do
  let fs ← getAttrDict rec
  let home := (dictGet fs "home_team").getD (.obj [])
  let visitor := (dictGet fs "visitor_team").getD (.obj [])
  let hfs ← getAttrDict home
  let vfs ← getAttrDict visitor
  return { game_id := dictGet fs "id"
           date := dictGet fs "date"
           season := dictGet fs "season"
           status := dictGet fs "status"
           periode := dictGet fs "period"
           postseason := dictGet fs "postseason"
           home_team_id := dictGet hfs "id"
           home_team_full_name := dictGet hfs "full_name"
           home_team_score := dictGet fs "home_team_score"
           visitor_team_id := dictGet vfs "id"
           visitor_team_full_name := dictGet vfs "full_name"
           visitor_team_score := dictGet fs "visitor_team_score" }

/-- The substring `scripts/validate.py` searches for in `str(e)` to decide
the error kind.  Note the plural "teams": the schema's after-validator
raises the singular "team". -/
def classifierNeedle : String := "Home and visitor teams cannot be identical"

/-- Error classification from the validation loop: `same_team` when the
needle occurs in the message, `invalid_schema` otherwise. -/
def classify (msg : String) : String :=
  if strContainsSub msg classifierNeedle then "same_team" else "invalid_schema"

/-- The global `counters` dict of `scripts/validate.py`. -/
structure Counters where
  invalid_schema : Nat
  same_team : Nat
deriving DecidableEq, Repr

/-- The initial value of the global counters. -/
def counters0 : Counters := ⟨0, 0⟩

/-- `counters[err_type] += 1`. -/
def bump (c : Counters) (t : String) : Counters :=
  if t = "same_team" then { c with same_team := c.same_team + 1 }
  else { c with invalid_schema := c.invalid_schema + 1 }

/-- One line of the error stream (`er_s` in `scripts/validate.py`). -/
structure ErrorRecord where
  type : String
  game_id_hint : Option JValue
  season : Option JValue
  reason : String

/-- Processing of one raw record by the validation loop: on success the
dumped game line is appended to the valid stream; on `ValidationError` the
error is classified, the matching counter bumped, and an `ErrorRecord`
appended — unless the record is not a dict, in which case `game.get("id")`
raises `AttributeError` (after the counter was already bumped). -/
def processRecord (c : Counters) (game : JValue) :
    Except (Counters × PyExn) (Counters × Option JValue × Option ErrorRecord) :=
  match validateGame game with
  | .ok g => .ok (c, some (gameDump g), none)
  | .error e =>
    let msg := renderVErr e
    let t := classify msg
    let c' := bump c t
    match game with
    | .obj fs => .ok (c', none, some ⟨t, dictGet fs "id", dictGet fs "season", strTake msg 300⟩)
    | _ => .error (c', .attributeError)

/-- The per-partition validation loop: thread the global counters through
`processRecord`, accumulating the valid stream and the error stream in
input order. -/
def validateRecords (c : Counters) :
    List JValue → Except (Counters × PyExn) (Counters × List JValue × List ErrorRecord)
  | [] => .ok (c, [], [])
  | g :: rest =>
    match processRecord c g with
    | .error e => .error e
    | .ok (c', v, er) =>
      match validateRecords c' rest with
      | .error e => .error e
      | .ok (c'', vs, ers) => .ok (c'', v.toList ++ vs, er.toList ++ ers)

/-- First phase of `scripts/validate.py`: validate every input file in
order with the shared global counters.  A partition's validated stream
exists on disk only if at least one valid line was appended (the file is
created by the first append). -/
def phase1 (c : Counters) :
    List (List JValue) → Except (Counters × PyExn) (Counters × List (Option (List JValue)))
  | [] => .ok (c, [])
  | games :: rest =>
    match validateRecords c games with
    | .error e => .error e
    | .ok (c', valids, _errs) =>
      match phase1 c' rest with
      | .error e => .error e
      | .ok (c'', streams) =>
        .ok (c'', (if valids.isEmpty then none else some valids) :: streams)

/-- One quality-report artifact (`quality_report` in `scripts/validate.py`). -/
structure Report where
  total_valid : Nat
  error_counts : Counters

/-- Number of partitions whose validated stream exists on disk (the
`os.path.exists` scan over the season range). -/
def countExisting (streams : List (Option (List JValue))) : Nat :=
  streams.countP Option.isSome

/-- The per-line flattening loop of the clean-table phase: stops at the
first raising record (none arises for dumped games). -/
def flattenAll : List JValue → Except PyExn (List FlatRow)
  | [] => .ok []
  | r :: rest =>
    match flatten r with
    | .error e => .error e
    | .ok row =>
      match flattenAll rest with
      | .error e => .error e
      | .ok rows => .ok (row :: rows)

/-- Second phase of `scripts/validate.py`: for every partition whose
validated stream exists, reload each line, flatten it into the clean table,
and write a quality report holding the fresh file-count scan and the
global counters as they stand.  A partition without a stream is skipped.
`allStreams` is the full list scanned by the report (the same season range
as the loop). -/
def phase2 (allStreams : List (Option (List JValue))) (c : Counters) :
    List (Option (List JValue)) → Except PyExn (List (List FlatRow) × List Report)
  | [] => .ok ([], [])
  | none :: rest => phase2 allStreams c rest
  | some lines :: rest =>
    match flattenAll lines with
    | .error e => .error e
    | .ok rows =>
      match phase2 allStreams c rest with
      | .error e => .error e
      | .ok (tables, reports) =>
        .ok (rows :: tables, ⟨countExisting allStreams, c⟩ :: reports)

/-- The whole `scripts/validate.py` run: phase 1 over all input files, then
phase 2 over the same partition range with the final counters. -/
def runScript (inputs : List (List JValue)) :
    Except (Counters × PyExn) (Counters × List (List FlatRow) × List Report) :=
  match phase1 counters0 inputs with
  | .error e => .error e
  | .ok (c, streams) =>
    match phase2 streams c streams with
    | .error ex => .error (c, ex)
    | .ok (tables, reports) => .ok (c, tables, reports)

/-! ## Paginated fetcher (`scripts/ingest.py`) -/

/-- The page cap from `scripts/ingest.py`. -/
def MAX_PAGES : Nat := 60

/-- One HTTP response from the remote source: status code, the `data` item
list (items are opaque, modelled as `Nat`), and `meta.next_cursor`. -/
structure PageResponse where
  status : Nat
  data : List Nat
  next_cursor : Option Nat
deriving DecidableEq, Repr

/-- An observable event of the fetch loop: a page request carrying its
cursor parameter (`none` for the cursorless first request), or a
`time.sleep` of the given number of seconds. -/
inductive FetchEvent where
  | request (cursor : Option Nat)
  | sleep (secs : Nat)
deriving DecidableEq, Repr

/-- Outcome of one season's fetch: either the accumulated games (normal
exit, raw file written) or the status of the response on which
`raise_for_status` raised (partition aborted, file not written).  Both
carry the full event trace. -/
inductive FetchOutcome where
  | ok (games : List Nat) (trace : List FetchEvent)
  | httpError (status : Nat) (trace : List FetchEvent)
deriving DecidableEq, Repr

/-- Python truthiness of the `cursor` variable in `while cursor and ...`:
`None` and `0` are falsy (the API delivers integer cursors). -/
def cursorTruthy : Option Nat → Bool
  | none => false
  | some c => c != 0

/-- `resp.raise_for_status()` raises exactly for status codes 400..599. -/
def isHttpError (status : Nat) : Bool :=
  400 ≤ status && status < 600

/-- The pagination `while cursor and page < MAX_PAGES` loop of
`scripts/ingest.py`.  Each iteration increments `page`, issues the request
for the current cursor (`oracle i` is the response to the i-th request of
the season), and then: on 429 sleeps 12 s and retries the same cursor; on
another error status raises; on an empty page breaks cleanly; otherwise
appends the items, takes the new cursor and sleeps 12 s. -/
def fetchLoop (oracle : Nat → PageResponse) (maxPages : Nat) (i : Nat)
    (cursor : Option Nat) (page : Nat) (games : List Nat)
    (trace : List FetchEvent) : FetchOutcome :=
  if h : cursorTruthy cursor ∧ page < maxPages then
    let resp := oracle i
    let trace' := trace ++ [.request cursor]
    if resp.status == 429 then
      fetchLoop oracle maxPages (i + 1) cursor (page + 1) games
        (trace' ++ [.sleep 12])
    else if isHttpError resp.status then
      .httpError resp.status trace'
    else if resp.data.isEmpty then
      .ok games trace'
    else
      fetchLoop oracle maxPages (i + 1) resp.next_cursor (page + 1)
        (games ++ resp.data) (trace' ++ [.sleep 12])
  else
    .ok games trace
termination_by maxPages - page
decreasing_by
  all_goals exact Nat.sub_lt_sub_left h.2 (Nat.lt_succ_self page)

/-- One season of `scripts/ingest.py`: the cursorless first request, with a
single 12 s backoff-and-retry on 429; `raise_for_status`; then the
pagination loop starting at `page = 1` with the first page's items and
cursor. -/
def fetchSeason (oracle : Nat → PageResponse) (maxPages : Nat) : FetchOutcome :=
  let resp := oracle 0
  if resp.status == 429 then
    let resp2 := oracle 1
    let trace := [.request none, .sleep 12, .request none]
    if isHttpError resp2.status then
      .httpError resp2.status trace
    else
      fetchLoop oracle maxPages 2 resp2.next_cursor 1 resp2.data trace
  else
    let trace := [.request none]
    if isHttpError resp.status then
      .httpError resp.status trace
    else
      fetchLoop oracle maxPages 1 resp.next_cursor 1 resp.data trace

/-- The event trace of a fetch outcome. -/
def FetchOutcome.trace : FetchOutcome → List FetchEvent
  | .ok _ t => t
  | .httpError _ t => t

/-- Whether a fetch outcome is a normal exit. -/
def FetchOutcome.isOk : FetchOutcome → Bool
  | .ok _ _ => true
  | .httpError _ _ => false

/-- Whether an event is a page request. -/
def FetchEvent.isRequest : FetchEvent → Bool
  | .request _ => true
  | .sleep _ => false

/-- Number of page requests in a trace. -/
def requestCount (t : List FetchEvent) : Nat :=
  t.countP FetchEvent.isRequest

/-- Number of page requests carrying a given cursor in a trace. -/
def attemptsAt (t : List FetchEvent) (c : Option Nat) : Nat :=
  t.countP (fun e => e == .request c)

/-! ## Aggregator (`scripts/compute_indicators.py`) -/

/-- The clean-table columns read by the aggregator (scores are the integer
score columns of the parquet file). -/
structure AggRow where
  home_team_full_name : String
  visitor_team_full_name : String
  home_team_score : Int
  visitor_team_score : Int
deriving DecidableEq, Repr

/-- `df["home_win"]`: strict score comparison, ties count as neither. -/
def AggRow.home_win (r : AggRow) : Bool :=
  r.home_team_score > r.visitor_team_score

/-- `df["visitor_win"]`. -/
def AggRow.visitor_win (r : AggRow) : Bool :=
  r.visitor_team_score > r.home_team_score

/-- The mean of a pandas group: absent (`none`) when the group key does not
occur, otherwise the arithmetic mean as a rational. -/
def seriesMean (vals : List Int) : Option ℚ :=
  if vals.isEmpty then none else some ((vals.sum : ℚ) / (vals.length : ℚ))

/-- `df.groupby(key)[val].mean()` evaluated at one group key. -/
def groupMean (key : AggRow → String) (val : AggRow → Int)
    (rows : List AggRow) (team : String) : Option ℚ :=
  seriesMean ((rows.filter (fun r => key r == team)).map val)

/-- `df.groupby(key)[flag].sum()` evaluated at one group key (a pandas sum
of booleans; absent when the key does not occur in the group index). -/
def groupSumBool (key : AggRow → String) (flag : AggRow → Bool)
    (rows : List AggRow) (team : String) : Option Nat :=
  let sel := rows.filter (fun r => key r == team)
  if sel.isEmpty then none else some (sel.countP flag)

/-- pandas `Series` addition with index alignment: a key missing from
either side yields NaN, modelled as `none`. -/
def optAdd {α : Type} [Add α] : Option α → Option α → Option α
  | some a, some b => some (a + b)
  | _, _ => none

/-- `best_defenses` at one team: mean points conceded at home plus mean
points conceded away. -/
def best_defenses (rows : List AggRow) (team : String) : Option ℚ :=
  optAdd (groupMean AggRow.home_team_full_name AggRow.visitor_team_score rows team)
    (groupMean AggRow.visitor_team_full_name AggRow.home_team_score rows team)

/-- The away component of `best_defenses`: mean points conceded while
playing as the visitor (`df.groupby("visitor_team_full_name")["home_team_score"].mean()`). -/
def defensesAway (rows : List AggRow) (team : String) : Option ℚ :=
  groupMean AggRow.visitor_team_full_name AggRow.home_team_score rows team

/-- `wins` at one team: home wins plus visitor wins. -/
def wins (rows : List AggRow) (team : String) : Option Nat :=
  optAdd (groupSumBool AggRow.home_team_full_name AggRow.home_win rows team)
    (groupSumBool AggRow.visitor_team_full_name AggRow.visitor_win rows team)

/-- The two example games of the aggregation example: Team A beats Team B
at home 110–90, and Team B beats Team A at home 105–95. -/
def exampleRows : List AggRow :=
  [⟨"A", "B", 110, 90⟩, ⟨"B", "A", 105, 95⟩]

/-! ## Concrete records and auxiliary observers used by the theorems -/

/-- Whether a JSON value is an object (a Python dict after `json.load`). -/
def isObj : JValue → Bool
  | .obj _ => true
  | _ => false

/-- Number of error records of a given kind. -/
def countType (t : String) (ers : List ErrorRecord) : Nat :=
  ers.countP (fun e => e.type == t)

/-- Projection of `processRecord` to its decidable part: the counters after
the record and the error kind written, `none` when the record raised. -/
def processType (c : Counters) (g : JValue) : Option (Counters × Option String) :=
  match processRecord c g with
  | .ok (c', _, er) => some (c', er.map ErrorRecord.type)
  | .error _ => none

/-- A schema-valid home team object (id 1). -/
def exTeamHome : List (String × JValue) :=
  [("id", .int 1), ("conference", .str "East"), ("division", .str "Atlantic"),
   ("city", .str "Boston"), ("name", .str "Celtics"),
   ("full_name", .str "Boston Celtics"), ("abbreviation", .str "BOS")]

/-- A schema-valid visitor team object (id 2). -/
def exTeamVisitor : List (String × JValue) :=
  [("id", .int 2), ("conference", .str "West"), ("division", .str "Pacific"),
   ("city", .str "Los Angeles"), ("name", .str "Lakers"),
   ("full_name", .str "Los Angeles Lakers"), ("abbreviation", .str "LAL")]

/-- A visitor team object sharing id 1 with `exTeamHome`. -/
def exTeamVisitorSame : List (String × JValue) :=
  [("id", .int 1), ("conference", .str "West"), ("division", .str "Pacific"),
   ("city", .str "Los Angeles"), ("name", .str "Lakers"),
   ("full_name", .str "Los Angeles Lakers"), ("abbreviation", .str "LAL")]

/-- The non-team scalar fields of a schema-valid raw record. -/
def validScalarFields : List (String × JValue) :=
  [("id", .int 99), ("date", .str "2021-01-15"), ("season", .int 2021),
   ("status", .str "Final"), ("period", .int 4), ("time", .str "Final"),
   ("postseason", .bool false), ("home_team_score", .int 110),
   ("visitor_team_score", .int 90), ("datetime", .str "2021-01-15T00:00:00Z")]

/-- A fully schema-valid raw record. -/
def validRec : JValue :=
  .obj (validScalarFields ++
    [("home_team", .obj exTeamHome), ("visitor_team", .obj exTeamVisitor)])

/-- The fields of a raw record that is schema-valid except that
`home_team.id == visitor_team.id` (both 1). -/
def sameTeamFields : List (String × JValue) :=
  validScalarFields ++
    [("home_team", .obj exTeamHome), ("visitor_team", .obj exTeamVisitorSame)]

/-- A raw record violating only the distinct-team invariant. -/
def sameTeamRec : JValue := .obj sameTeamFields

/-- The fields of a schema-valid raw record whose id is the JSON string
"42" (Pydantic lax mode coerces it to the integer 42). -/
def strIdFields : List (String × JValue) :=
  [("id", .str "42"), ("date", .str "2021-01-15"), ("season", .int 2021),
   ("status", .str "Final"), ("period", .int 4), ("time", .str "Final"),
   ("postseason", .bool false), ("home_team_score", .int 110),
   ("visitor_team_score", .int 90), ("datetime", .str "2021-01-15T00:00:00Z"),
   ("home_team", .obj exTeamHome), ("visitor_team", .obj exTeamVisitor)]

/-- The raw record with a string id. -/
def strIdRec : JValue := .obj strIdFields

/-- The fields of `o.getD (.obj [])` when `o` is an object or absent. -/
def objFieldsOf : Option JValue → List (String × JValue)
  | some (.obj tfs) => tfs
  | _ => []

/-- A value a validation record may hold at a team key without making
`flatten` raise: either absent or a JSON object. -/
def isObjOrAbsent : Option JValue → Bool
  | none => true
  | some (.obj _) => true
  | some _ => false

/-- A source that answers 429 to every request. -/
def oracle429 : Nat → PageResponse := fun _ => ⟨429, [], none⟩

/-- A source whose first page succeeds with cursor 7 and which then answers
429 twice before succeeding: responses are indexed by request number. -/
def oracleLoop429 : Nat → PageResponse := fun i =>
  if i = 0 then ⟨200, [1], some 7⟩
  else if i = 1 then ⟨429, [], none⟩
  else if i = 2 then ⟨429, [], none⟩
  else ⟨200, [2], none⟩

/-- A source with an unending cursor chain of non-empty pages. -/
def oracleEndless : Nat → PageResponse := fun i => ⟨200, [i], some (i + 1)⟩

/-- The flat row produced from the validated example record. -/
def validRow : FlatRow :=
  { game_id := some (.int 99), date := some (.str "2021-01-15"),
    season := some (.int 2021), status := some (.str "Final"),
    periode := some (.int 4), postseason := some (.bool false),
    home_team_id := some (.int 1),
    home_team_full_name := some (.str "Boston Celtics"),
    home_team_score := some (.int 110), visitor_team_id := some (.int 2),
    visitor_team_full_name := some (.str "Los Angeles Lakers"),
    visitor_team_score := some (.int 90) }

/-! ## Key sets and record builders for the unknown-field contract (C8) -/

/-- The declared field names of `TeamInfo`. -/
def teamKeys : List String :=
  ["id", "conference", "division", "city", "name", "full_name", "abbreviation"]

/-- The declared field names of `Game`. -/
def gameKeys : List String :=
  ["id", "date", "season", "status", "period", "time", "postseason",
   "home_team_score", "visitor_team_score", "datetime",
   "home_q1", "home_q2", "home_q3", "home_q4",
   "home_ot1", "home_ot2", "home_ot3",
   "home_timeouts_remaining", "home_in_bonus",
   "visitor_q1", "visitor_q2", "visitor_q3", "visitor_q4",
   "visitor_ot1", "visitor_ot2", "visitor_ot3",
   "visitor_timeouts_remaining", "visitor_in_bonus",
   "home_team", "visitor_team"]

/-- A raw record assembled from its team objects and remaining fields. -/
def mkRec (fields tf vf : List (String × JValue)) : JValue :=
  .obj (("home_team", .obj tf) :: ("visitor_team", .obj vf) :: fields)

/-- The same record with extra fields appended at the top level and inside
each team object. -/
def mkRecExt (fields tf vf eT eH eV : List (String × JValue)) : JValue :=
  .obj (("home_team", .obj (tf ++ eH)) :: ("visitor_team", .obj (vf ++ eV))
    :: (fields ++ eT))

/-- Whether a raw record passes `Game.model_validate`. -/
def validatesOk (v : JValue) : Bool :=
  match validateGame v with
  | .ok _ => true
  | .error _ => false

/-! ## Theorems -/

theorem dictGet_nil (k : String) : dictGet [] k = none := rfl

theorem dictGet_cons (k' k : String) (v : JValue) (fs : List (String × JValue)) :
    dictGet ((k', v) :: fs) k = if k' = k then some v else dictGet fs k := rfl

/-- Looking a key up in an appended association list whose second part does
not contain the key is the same as looking it up in the first part. -/
theorem dictGet_append_of_not_mem (fs extra : List (String × JValue)) (k : String)
    (h : ∀ p ∈ extra, p.1 ≠ k) : dictGet (fs ++ extra) k = dictGet fs k := by
  induction fs with
  | nil =>
    simp only [List.nil_append, dictGet_nil]
    induction extra with
    | nil => rfl
    | cons p rest ih =>
      have hp : p.1 ≠ k := h p (by simp)
      cases p with
      | mk pk pv =>
        simp only [dictGet_cons, if_neg hp]
        exact ih (fun q hq => h q (by simp [hq]))
  | cons p rest ih =>
    cases p with
    | mk pk pv =>
      by_cases hk : pk = k
      · simp [dictGet_cons, hk]
      · simp only [List.cons_append, dictGet_cons, if_neg hk]
        exact ih

/-- `Except` bind on a success reduces to the continuation. -/
theorem except_bind_ok {ε α β : Type} (a : α) (f : α → Except ε β) :
    (Except.ok (ε := ε) a >>= f) = f a := rfl

/-- `Except` bind on an error short-circuits. -/
theorem except_bind_error {ε α β : Type} (e : ε) (f : α → Except ε β) :
    (Except.error (α := α) e >>= f) = (Except.error e : Except ε β) := rfl

theorem getAttrDict_getD (o : Option JValue) (h : isObjOrAbsent o = true) :
    getAttrDict (o.getD (.obj [])) = .ok (objFieldsOf o) := by
  cases o with
  | none => rfl
  | some v => cases v <;> simp_all [isObjOrAbsent, getAttrDict, objFieldsOf, Option.getD]

theorem getAttrDict_obj (fs : List (String × JValue)) :
    getAttrDict (.obj fs) = .ok fs := rfl

/-- `processRecord` on an object record never raises and contributes
exactly one line (to the valid stream or to the error stream). -/
theorem processRecord_obj (c : Counters) (fs : List (String × JValue)) :
    ∃ c' v er, processRecord c (.obj fs) = .ok (c', v, er) ∧
      v.toList.length + er.toList.length = 1 := by
  cases hv : validateGame (.obj fs) with
  | ok g => exact ⟨c, some (gameDump g), none, by simp [processRecord, hv], rfl⟩
  | error e =>
    refine ⟨bump c (classify (renderVErr e)), none,
      some ⟨classify (renderVErr e), dictGet fs "id", dictGet fs "season",
        strTake (renderVErr e) 300⟩, ?_, rfl⟩
    simp [processRecord, hv]

/-- A list of object records is validated to completion: one output line
per record, no exception. -/
theorem validateRecords_ok_of_objs (c : Counters) (games : List JValue)
    (h : ∀ g ∈ games, isObj g = true) :
    ∃ c' vs ers, validateRecords c games = .ok (c', vs, ers) ∧
      vs.length + ers.length = games.length := by
  induction games generalizing c with
  | nil => exact ⟨c, [], [], rfl, rfl⟩
  | cons g rest ih =>
    have hg : isObj g = true := h g (by simp)
    obtain ⟨fs, rfl⟩ : ∃ fs, g = .obj fs := by
      cases g <;> simp_all [isObj]
    obtain ⟨c1, v, er, hp, hlen⟩ := processRecord_obj c fs
    obtain ⟨c', vs, ers, hr, hlen2⟩ := ih c1 (fun g hg2 => h g (by simp [hg2]))
    refine ⟨c', v.toList ++ vs, er.toList ++ ers, ?_, ?_⟩
    · simp [validateRecords, hp, hr]
    · simp only [List.length_append, List.length_cons]
      omega

/-! ## C1 -/

set_option maxRecDepth 100000 in
/-- **C1** (code-bug evidence).  The claim says a record whose two team ids
coincide is classified `same_team`.  On the code it is not: the schema's
after-validator raises "Home and visitor team cannot be identical"
(singular "team"), while the classification loop searches `str(e)` for
"Home and visitor teams cannot be identical" (plural "teams"), so the
`same_team` branch never fires.  At the concrete same-team record, the
validation failure is the after-validator error, yet the written
`ErrorRecord` carries kind `invalid_schema` and only the `invalid_schema`
counter is incremented. -/
theorem c1_same_team_misclassified :
    validateGame sameTeamRec =
      .error (.valueError "Home and visitor team cannot be identical") ∧
    classify (renderVErr (.valueError "Home and visitor team cannot be identical"))
      = "invalid_schema" ∧
    processType counters0 sameTeamRec = some (⟨1, 0⟩, some "invalid_schema") :=
  ⟨rfl, rfl, rfl⟩

/-! ## C3 -/

/-- **C3** (counterexample).  In the two-game example the away component of
the defensive table for team B is
`df.groupby("visitor_team_full_name")["home_team_score"].mean()` at B,
i.e. the 110 points the home team A scored in game 1 — not 90 as the claim
states. -/
theorem c3_away_defense_counterexample :
    defensesAway exampleRows "B" = some 110 ∧
      ¬ defensesAway exampleRows "B" = some 90 := by
  constructor <;>
    · simp only [defensesAway, groupMean, seriesMean, exampleRows, List.filter, List.map]
      norm_num

/-- **C3** (amended).  Given the two example games — A beats B at home
110–90 and B beats A at home 105–95 — the win table maps A to 1 and B to 1,
and the defensive table's away component gives A an away-points-conceded
average of 105 and B an away-points-conceded average of 110 (not 90: 90 is
what B scored away, equivalently what A conceded at home). -/
theorem c3_aggregation_example :
    wins exampleRows "A" = some 1 ∧ wins exampleRows "B" = some 1 ∧
    defensesAway exampleRows "A" = some 105 ∧
    defensesAway exampleRows "B" = some 110 := by
  refine ⟨by rfl, by rfl, ?_, ?_⟩ <;>
    · simp only [defensesAway, groupMean, seriesMean, exampleRows, List.filter, List.map]
      norm_num

/-! ## C4 -/

/-- **C4** (counterexample).  The claim says a record so malformed that no
id can be extracted — for example one that is not an object — still yields
an `ErrorRecord`.  On the code, `Game.model_validate` raises a
`ValidationError` (caught), but the handler's `game.get("id")` then raises
`AttributeError` on the non-dict record, aborting the partition (with the
`invalid_schema` counter already incremented). -/
theorem c4_nondict_record_aborts :
    validateRecords counters0 [.int 5] = .error (⟨1, 0⟩, .attributeError) := rfl

/-- **C4** (amended).  Restricted to lists of JSON-object records,
`validate_partition` never raises: every record either validates or is
captured as exactly one classified `ErrorRecord`, and the id hint of a
failing object record is the record's own `get("id")` lookup — absent when
the record has no id key.  A record that is not a JSON object, however,
makes the error handler itself raise `AttributeError` and aborts the
partition (see the counterexample). -/
theorem c4_validate_partition_total :
    (∀ c games, (∀ g ∈ games, isObj g = true) →
      ∃ c' vs ers, validateRecords c games = .ok (c', vs, ers) ∧
        vs.length + ers.length = games.length) ∧
    (∀ c fs c' er, processRecord c (.obj fs) = .ok (c', none, some er) →
      er.game_id_hint = dictGet fs "id") := by
  constructor
  · exact fun c games h => validateRecords_ok_of_objs c games h
  · intro c fs c' er h
    cases hv : validateGame (.obj fs) with
    | ok g => simp [processRecord, hv] at h
    | error e =>
      simp only [processRecord, hv, Except.ok.injEq, Prod.mk.injEq,
        Option.some.injEq] at h
      rw [← h.2.2]

set_option maxRecDepth 100000 in
/-- **C4** (witness): the amended theorem applied to the one-record list
holding the same-team record, and to a failing object record without an id
key. -/
theorem c4_validate_partition_total_witness :
    (∃ c' vs ers, validateRecords counters0 [sameTeamRec] = .ok (c', vs, ers) ∧
      vs.length + ers.length = 1) ∧
    (ErrorRecord.game_id_hint
        ⟨"invalid_schema", none, some (.int 2021),
          "1 validation error for Game\nid\n  Field required"⟩
      = dictGet [("season", .int 2021)] "id") := by
  constructor
  · exact c4_validate_partition_total.1 counters0 [sameTeamRec]
      (by intro g hg; simp at hg; subst hg; rfl)
  · exact c4_validate_partition_total.2 counters0 [("season", .int 2021)] ⟨1, 0⟩ _ rfl

/-! ## C10 -/

/-- **C10** (counterexample).  `flatten` is not total on dictionaries: a
dict whose `home_team` key holds a non-dict value makes
`home_team.get("id")` raise `AttributeError`. -/
theorem c10_flatten_nondict_team_raises :
    flatten (.obj [("home_team", .int 5)]) = .error .attributeError := rfl

/-- **C10** (amended).  `flatten` is total on every dictionary whose
`home_team` and `visitor_team` keys, when present, hold objects: it returns
the `FlatRow` with exactly the twelve fixed columns, each holding the
corresponding `.get` lookup (absent keys give `None`, and an absent team
object makes all its columns `None` via the `{}` default).  On a dictionary
whose team value is a non-dict, `flatten` raises (see the counterexample). -/
theorem c10_flatten_total (fs : List (String × JValue))
    (h1 : isObjOrAbsent (dictGet fs "home_team") = true)
    (h2 : isObjOrAbsent (dictGet fs "visitor_team") = true) :
    flatten (.obj fs) = .ok
      { game_id := dictGet fs "id"
        date := dictGet fs "date"
        season := dictGet fs "season"
        status := dictGet fs "status"
        periode := dictGet fs "period"
        postseason := dictGet fs "postseason"
        home_team_id := dictGet (objFieldsOf (dictGet fs "home_team")) "id"
        home_team_full_name := dictGet (objFieldsOf (dictGet fs "home_team")) "full_name"
        home_team_score := dictGet fs "home_team_score"
        visitor_team_id := dictGet (objFieldsOf (dictGet fs "visitor_team")) "id"
        visitor_team_full_name := dictGet (objFieldsOf (dictGet fs "visitor_team")) "full_name"
        visitor_team_score := dictGet fs "visitor_team_score" } := by
  have e1 := getAttrDict_getD (dictGet fs "home_team") h1
  have e2 := getAttrDict_getD (dictGet fs "visitor_team") h2
  simp only [flatten, getAttrDict_obj, except_bind_ok, e1, e2]
  rfl

/-- **C10** (witness): the amended theorem at the dictionary holding only
an id: all other columns come out `None`. -/
theorem c10_flatten_total_witness :
    isObjOrAbsent (dictGet [("id", JValue.int 7)] "home_team") = true ∧
    flatten (.obj [("id", JValue.int 7)]) = .ok
      { game_id := dictGet [("id", JValue.int 7)] "id"
        date := dictGet [("id", JValue.int 7)] "date"
        season := dictGet [("id", JValue.int 7)] "season"
        status := dictGet [("id", JValue.int 7)] "status"
        periode := dictGet [("id", JValue.int 7)] "period"
        postseason := dictGet [("id", JValue.int 7)] "postseason"
        home_team_id := dictGet (objFieldsOf (dictGet [("id", JValue.int 7)] "home_team")) "id"
        home_team_full_name :=
          dictGet (objFieldsOf (dictGet [("id", JValue.int 7)] "home_team")) "full_name"
        home_team_score := dictGet [("id", JValue.int 7)] "home_team_score"
        visitor_team_id :=
          dictGet (objFieldsOf (dictGet [("id", JValue.int 7)] "visitor_team")) "id"
        visitor_team_full_name :=
          dictGet (objFieldsOf (dictGet [("id", JValue.int 7)] "visitor_team")) "full_name"
        visitor_team_score := dictGet [("id", JValue.int 7)] "visitor_team_score" } :=
  ⟨rfl, c10_flatten_total [("id", JValue.int 7)] rfl rfl⟩

theorem requestCount_append (t1 t2 : List FetchEvent) :
    requestCount (t1 ++ t2) = requestCount t1 + requestCount t2 := by
  simp [requestCount, List.countP_append]

/-- Under a source that always returns 200 with a non-empty page and a
truthy cursor, the pagination loop runs to the page cap and issues one
request per remaining page. -/
theorem fetchLoop_allgood (oracle : Nat → PageResponse) (maxPages : Nat)
    (hgood : ∀ k, (oracle k).status = 200 ∧ (oracle k).data ≠ [] ∧
      cursorTruthy (oracle k).next_cursor = true) :
    ∀ fuel i c page games trace, maxPages - page = fuel → cursorTruthy c = true →
      (fetchLoop oracle maxPages i c page games trace).isOk = true ∧
      requestCount (fetchLoop oracle maxPages i c page games trace).trace
        = requestCount trace + (maxPages - page) := by
  intro fuel
  induction fuel with
  | zero =>
    intro i c page games trace hf hc
    have hnp : ¬ page < maxPages := by omega
    rw [fetchLoop, dif_neg (fun hcon => hnp hcon.2)]
    exact ⟨rfl, by simp [FetchOutcome.trace]; omega⟩
  | succ n ih =>
    intro i c page games trace hf hc
    have hp : page < maxPages := by omega
    obtain ⟨h200, hne, hct⟩ := hgood i
    rw [fetchLoop, dif_pos ⟨hc, hp⟩]
    simp only [h200, Nat.reduceBEq, Bool.false_eq_true, if_false, isHttpError,
      show ((400 ≤ 200 : Bool) && (200 < 600 : Bool)) = false by rfl,
      List.isEmpty_eq_true, hne]
    obtain ⟨hA, hB⟩ := ih (i + 1) (oracle i).next_cursor (page + 1)
      (games ++ (oracle i).data) (trace ++ [.request c] ++ [.sleep 12]) (by omega) hct
    refine ⟨hA, ?_⟩
    rw [hB, requestCount_append, requestCount_append]
    have : requestCount [FetchEvent.request c] = 1 := rfl
    have h2 : requestCount [FetchEvent.sleep 12] = 0 := rfl
    omega

/-! ## C6 -/

/-- **C6**.  For a source that always returns a non-empty page with a
non-null (truthy) cursor and status 200, the fetch of one season stops
normally — no error is raised, the raw file is written — after issuing
exactly `maxPages` page requests (the cursorless first request plus
`maxPages - 1` loop requests), for any positive page cap. -/
theorem c6_pagination_cap (oracle : Nat → PageResponse) (maxPages : Nat)
    (h1 : 1 ≤ maxPages)
    (hgood : ∀ k, (oracle k).status = 200 ∧ (oracle k).data ≠ [] ∧
      cursorTruthy (oracle k).next_cursor = true) :
    (fetchSeason oracle maxPages).isOk = true ∧
    requestCount (fetchSeason oracle maxPages).trace = maxPages := by
  obtain ⟨h200, hne, hct⟩ := hgood 0
  have hloop := fetchLoop_allgood oracle maxPages hgood (maxPages - 1) 1
    (oracle 0).next_cursor 1 (oracle 0).data [.request none] rfl hct
  simp only [fetchSeason, h200, Nat.reduceBEq, Bool.false_eq_true, if_false, isHttpError,
    show ((400 ≤ 200 : Bool) && (200 < 600 : Bool)) = false by rfl]
  refine ⟨hloop.1, ?_⟩
  rw [hloop.2]
  have : requestCount [FetchEvent.request none] = 1 := rfl
  omega

/-- **C6** (witness): the theorem at the endless source with the cap set to
3 pages — the fetch stops normally after exactly 3 requests. -/
theorem c6_pagination_cap_witness :
    (fetchSeason oracleEndless 3).isOk = true ∧
    requestCount (fetchSeason oracleEndless 3).trace = 3 :=
  c6_pagination_cap oracleEndless 3 (by norm_num)
    (fun k => ⟨rfl, by simp [oracleEndless], by simp [oracleEndless, cursorTruthy]⟩)

/-! ## C2 -/

/-- **C2** (counterexample).  In the pagination loop, two consecutive 429
responses to the same cursor request are followed by a third attempt at
that request: with a source whose requests 1 and 2 (the first two attempts
at cursor 7) return 429, the fetch still succeeds and the trace holds three
requests carrying cursor 7 — the claim says a request is never attempted a
third time. -/
theorem c2_third_attempt_counterexample :
    (oracleLoop429 1).status = 429 ∧ (oracleLoop429 2).status = 429 ∧
    (fetchSeason oracleLoop429 MAX_PAGES).isOk = true ∧
    attemptsAt (fetchSeason oracleLoop429 MAX_PAGES).trace (some 7) = 3 := by
  refine ⟨rfl, rfl, ?_, ?_⟩
  · simp [fetchSeason, fetchLoop, oracleLoop429, cursorTruthy, isHttpError,
      FetchOutcome.isOk, MAX_PAGES]
  · simp [fetchSeason, fetchLoop, oracleLoop429, cursorTruthy, isHttpError,
      attemptsAt, FetchOutcome.trace, MAX_PAGES]

/-- **C2** (amended).  The retry-once behaviour holds only for the first,
cursorless request of a season: there a 429 causes a 12-unit sleep and
exactly one retry of the identical request, and a second consecutive 429
surfaces as the partition's error after exactly those two attempts.
Inside the pagination loop, a 429 instead causes a 12-unit sleep and a
reissue of the identical cursor request while consuming one page of the
`MAX_PAGES` budget, repeating until a non-429 response or the cap, so the
same request can be attempted three or more times (see the
counterexample). -/
theorem c2_rate_limit_retry :
    (∀ (oracle : Nat → PageResponse) (maxPages : Nat),
      (oracle 0).status = 429 → (oracle 1).status = 429 →
      fetchSeason oracle maxPages =
        .httpError 429 [.request none, .sleep 12, .request none]) ∧
    (∀ (oracle : Nat → PageResponse) (maxPages i page games trace : _) (c : Option Nat),
      cursorTruthy c = true → page < maxPages → (oracle i).status = 429 →
      fetchLoop oracle maxPages i c page games trace =
        fetchLoop oracle maxPages (i + 1) c (page + 1) games
          (trace ++ [.request c, .sleep 12])) := by
  constructor
  · intro oracle maxPages h0 h1
    simp [fetchSeason, h0, h1, isHttpError]
  · intro oracle maxPages i page games trace c hc hp h429
    rw [fetchLoop, dif_pos ⟨hc, hp⟩]
    simp [h429]

/-- **C2** (witness): both amended behaviours at concrete sources — the
double-429 first page surfaces after two attempts, and an in-loop 429 at
cursor 7 reissues cursor 7 with one page of budget consumed. -/
theorem c2_rate_limit_retry_witness :
    fetchSeason oracle429 60 = .httpError 429 [.request none, .sleep 12, .request none] ∧
    fetchLoop oracle429 60 5 (some 7) 1 [] [] =
      fetchLoop oracle429 60 6 (some 7) 2 [] [.request (some 7), .sleep 12] := by
  constructor
  · exact c2_rate_limit_retry.1 oracle429 60 rfl rfl
  · exact c2_rate_limit_retry.2 oracle429 60 5 1 [] [] (some 7) rfl (by norm_num) rfl

/-- The classifier only ever produces the two error kinds. -/
theorem classify_cases (m : String) :
    classify m = "same_team" ∨ classify m = "invalid_schema" := by
  unfold classify
  split <;> simp

/-- Shape of a non-raising record step: either the record validated (the
counters are untouched and no error is written), or one classified
`ErrorRecord` is written and exactly its kind's counter is bumped. -/
theorem processRecord_ok_cases (c : Counters) (g : JValue)
    (c1 : Counters) (v : Option JValue) (er : Option ErrorRecord)
    (h : processRecord c g = .ok (c1, v, er)) :
    (c1 = c ∧ er = none) ∨
    (∃ e, er = some e ∧ (e.type = "same_team" ∨ e.type = "invalid_schema") ∧
      c1 = bump c e.type) := by
  cases hv : validateGame g with
  | ok gm =>
    simp only [processRecord, hv, Except.ok.injEq, Prod.mk.injEq] at h
    exact Or.inl ⟨h.1.symm, h.2.2.symm⟩
  | error e =>
    cases g with
    | obj fs =>
      simp only [processRecord, hv, Except.ok.injEq, Prod.mk.injEq] at h
      exact Or.inr ⟨⟨classify (renderVErr e), dictGet fs "id", dictGet fs "season",
        strTake (renderVErr e) 300⟩, h.2.2.symm, classify_cases _, h.1.symm⟩
    | null => simp [processRecord, hv] at h
    | bool b => simp [processRecord, hv] at h
    | int n => simp [processRecord, hv] at h
    | str s => simp [processRecord, hv] at h
    | arr xs => simp [processRecord, hv] at h

/-- After a completed run over a record list, each counter equals its
starting value plus the number of error lines of its kind. -/
theorem validateRecords_counts (games : List JValue) :
    ∀ c c' vs ers, validateRecords c games = .ok (c', vs, ers) →
      c'.invalid_schema = c.invalid_schema + countType "invalid_schema" ers ∧
      c'.same_team = c.same_team + countType "same_team" ers := by
  induction games with
  | nil =>
    intro c c' vs ers h
    simp only [validateRecords, Except.ok.injEq, Prod.mk.injEq] at h
    obtain ⟨h1, -, h3⟩ := h
    simp [countType, ← h3, ← h1]
  | cons g rest ih =>
    intro c c' vs ers h
    simp only [validateRecords] at h
    cases hp : processRecord c g with
    | error e => simp [hp] at h
    | ok t =>
      obtain ⟨c1, v, er⟩ := t
      simp only [hp] at h
      cases hr : validateRecords c1 rest with
      | error e2 => simp [hr] at h
      | ok t2 =>
        obtain ⟨c2, vs2, ers2⟩ := t2
        simp only [hr, Except.ok.injEq, Prod.mk.injEq] at h
        obtain ⟨hc2, -, hers⟩ := h
        obtain ⟨hrec1, hrec2⟩ := ih c1 c2 vs2 ers2 hr
        subst hc2
        rcases processRecord_ok_cases c g c1 v er hp with ⟨rfl, rfl⟩ | ⟨e, rfl, htype, rfl⟩
        · constructor
          · rw [← hers, hrec1]; simp [countType]
          · rw [← hers, hrec2]; simp [countType]
        · rcases htype with ht | ht
          · constructor
            · rw [← hers, hrec1]
              simp [countType, List.countP_cons, bump, ht,
                show (("same_team" : String) == "invalid_schema") = false by decide]
            · rw [← hers, hrec2]
              simp [countType, List.countP_cons, bump, ht]
              omega
          · constructor
            · rw [← hers, hrec1]
              have hne : e.type ≠ "same_team" := by rw [ht]; decide
              simp [countType, List.countP_cons, bump, ht, hne]
              omega
            · rw [← hers, hrec2]
              have hne : e.type ≠ "same_team" := by rw [ht]; decide
              simp [countType, List.countP_cons, bump, ht, hne,
                show (("invalid_schema" : String) == "same_team") = false by decide]

/-- Running the per-record loop over a concatenation is running it over the
first part and continuing over the second with the reached counters. -/
theorem validateRecords_append (l1 l2 : List JValue) :
    ∀ c c1 v1 e1 c2 v2 e2, validateRecords c l1 = .ok (c1, v1, e1) →
      validateRecords c1 l2 = .ok (c2, v2, e2) →
      validateRecords c (l1 ++ l2) = .ok (c2, v1 ++ v2, e1 ++ e2) := by
  induction l1 with
  | nil =>
    intro c c1 v1 e1 c2 v2 e2 h1 h2
    simp only [validateRecords, Except.ok.injEq, Prod.mk.injEq] at h1
    obtain ⟨hc, hv, he⟩ := h1
    simp only [List.nil_append, ← hv, ← he, List.nil_append]
    rw [hc]
    exact h2
  | cons g rest ih =>
    intro c c1 v1 e1 c2 v2 e2 h1 h2
    simp only [validateRecords] at h1 ⊢
    cases hp : processRecord c g with
    | error e => simp [hp] at h1
    | ok t =>
      obtain ⟨c0, v, er⟩ := t
      simp only [hp] at h1
      cases hr : validateRecords c0 rest with
      | error e2 => simp [hr] at h1
      | ok t2 =>
        obtain ⟨c1', vs, ers⟩ := t2
        simp only [hr, Except.ok.injEq, Prod.mk.injEq] at h1
        obtain ⟨hc1, hv1, he1⟩ := h1
        simp only [List.append_eq, ih c0 c1' vs ers c2 v2 e2 hr (hc1 ▸ h2)]
        simp [← hv1, ← he1, List.append_assoc]

/-! ## C7 -/

/-- **C7**.  Over a single run on object records, the error-kind counters
are monotone non-decreasing and at every record boundary each counter
equals the number of `ErrorRecord` lines of its kind appended so far: for
any two prefix lengths `i ≤ j` of the input, both prefix runs complete,
each counter equals the count of its kind in the error stream written so
far, and the counters at `i` are bounded by those at `j`. -/
theorem c7_counters_invariant (games : List JValue)
    (h : ∀ g ∈ games, isObj g = true) (i j : Nat) (hij : i ≤ j) :
    ∃ ci vi ei cj vj ej,
      validateRecords counters0 (games.take i) = .ok (ci, vi, ei) ∧
      validateRecords counters0 (games.take j) = .ok (cj, vj, ej) ∧
      ci.invalid_schema = countType "invalid_schema" ei ∧
      ci.same_team = countType "same_team" ei ∧
      cj.invalid_schema = countType "invalid_schema" ej ∧
      cj.same_team = countType "same_team" ej ∧
      ci.invalid_schema ≤ cj.invalid_schema ∧
      ci.same_team ≤ cj.same_team := by
  obtain ⟨ci, vi, ei, hi, -⟩ := validateRecords_ok_of_objs counters0 (games.take i)
    (fun g hg => h g (List.take_subset i games hg))
  obtain ⟨cj', vm, em, hm, -⟩ := validateRecords_ok_of_objs ci
    ((games.drop i).take (j - i))
    (fun g hg => h g (List.drop_subset i games (List.take_subset _ _ hg)))
  have htj : games.take j = games.take i ++ (games.drop i).take (j - i) := by
    rw [← List.take_add]
    congr 1
    omega
  have hj : validateRecords counters0 (games.take j) = .ok (cj', vi ++ vm, ei ++ em) := by
    rw [htj]
    exact validateRecords_append _ _ counters0 ci vi ei cj' vm em hi hm
  obtain ⟨hi1, hi2⟩ := validateRecords_counts (games.take i) counters0 ci vi ei hi
  obtain ⟨hj1, hj2⟩ := validateRecords_counts (games.take j) counters0 cj'
    (vi ++ vm) (ei ++ em) hj
  refine ⟨ci, vi, ei, cj', vi ++ vm, ei ++ em, hi, hj, ?_, ?_, ?_, ?_, ?_, ?_⟩ <;>
    simp only [counters0, countType, List.countP_append] at hi1 hi2 hj1 hj2 ⊢ <;>
    omega

/-- **C7** (witness): the invariant at the two-record list holding the
same-team record then a valid record, at prefix lengths 1 and 2. -/
theorem c7_counters_invariant_witness :
    ∃ ci vi ei cj vj ej,
      validateRecords counters0 ([sameTeamRec, validRec].take 1) = .ok (ci, vi, ei) ∧
      validateRecords counters0 ([sameTeamRec, validRec].take 2) = .ok (cj, vj, ej) ∧
      ci.invalid_schema = countType "invalid_schema" ei ∧
      ci.same_team = countType "same_team" ei ∧
      cj.invalid_schema = countType "invalid_schema" ej ∧
      cj.same_team = countType "same_team" ej ∧
      ci.invalid_schema ≤ cj.invalid_schema ∧
      ci.same_team ≤ cj.same_team :=
  c7_counters_invariant [sameTeamRec, validRec]
    (by
      intro g hg
      simp only [List.mem_cons, List.not_mem_nil, or_false] at hg
      rcases hg with rfl | rfl <;> rfl)
    1 2 (by norm_num)

/-! ## C9 -/

/-- Every report emitted by the clean-table phase carries the counters it
was given. -/
theorem phase2_reports (allS : List (Option (List JValue))) (c : Counters) :
    ∀ streams tables reports, phase2 allS c streams = .ok (tables, reports) →
      ∀ r ∈ reports, r.error_counts = c := by
  intro streams
  induction streams with
  | nil =>
    intro tables reports h
    simp only [phase2, Except.ok.injEq, Prod.mk.injEq] at h
    simp [← h.2]
  | cons o rest ih =>
    intro tables reports h
    cases o with
    | none => exact ih tables reports h
    | some lines =>
      simp only [phase2] at h
      cases hm : flattenAll lines with
      | error e => simp [hm] at h
      | ok rows =>
        simp only [hm] at h
        cases hr : phase2 allS c rest with
        | error e => simp [hr] at h
        | ok t =>
          obtain ⟨tables2, reports2⟩ := t
          simp only [hr, Except.ok.injEq, Prod.mk.injEq] at h
          intro r hrm
          rw [← h.2] at hrm
          rcases List.mem_cons.mp hrm with rfl | hmem
          · rfl
          · exact ih tables2 reports2 hr r hmem

/-- **C9**.  When the whole validation script run completes, every quality
report written during the run carries the same `error_counts`, equal to the
final global counters reached after all partitions were validated — every
report is emitted in the clean-table phase, which runs only after the
validation loop over all input files has finished and never mutates the
counters. -/
theorem c9_reports_final_counters (inputs : List (List JValue))
    (c : Counters) (tables : List (List FlatRow)) (reports : List Report)
    (h : runScript inputs = .ok (c, tables, reports)) :
    ∀ r ∈ reports, r.error_counts = c := by
  unfold runScript at h
  cases h1 : phase1 counters0 inputs with
  | error e => simp [h1] at h
  | ok t =>
    obtain ⟨c1, streams⟩ := t
    simp only [h1] at h
    cases h2 : phase2 streams c1 streams with
    | error e => simp [h2] at h
    | ok t2 =>
      obtain ⟨tables2, reports2⟩ := t2
      simp only [h2, Except.ok.injEq, Prod.mk.injEq] at h
      obtain ⟨hc, -, hr⟩ := h
      intro r hrm
      rw [← hr] at hrm
      rw [← hc]
      exact phase2_reports streams c1 streams tables2 reports2 h2 r hrm

set_option maxRecDepth 400000 in
/-- **C9** (witness): the full script run on one partition holding one
valid record emits exactly one report, which carries the final (zero)
counters. -/
theorem c9_reports_final_counters_witness :
    runScript [[validRec]] = .ok (counters0, [[validRow]], [⟨1, counters0⟩]) ∧
    Report.error_counts ⟨1, counters0⟩ = counters0 :=
  ⟨rfl, c9_reports_final_counters [[validRec]] counters0 [[validRow]]
    [⟨1, counters0⟩] rfl ⟨1, counters0⟩ (by simp)⟩

/-! ## C5 -/

/-- `Except` bind equals a success iff the first step succeeds and the
continuation succeeds on its value. -/
theorem except_bind_ok_iff {ε α β : Type} (x : Except ε α) (f : α → Except ε β) (b : β) :
    (x >>= f) = .ok b ↔ ∃ a, x = .ok a ∧ f a = .ok b := by
  cases x with
  | error e => simp [except_bind_error]
  | ok a => simp [except_bind_ok]

/-- `pure` of the `Except` monad is `ok`. -/
theorem except_pure_eq {ε α : Type} (a : α) :
    (pure a : Except ε α) = .ok a := rfl

set_option maxRecDepth 400000 in
/-- **C5** (counterexample).  The round-trip identity on the key field
fails for a schema-valid record whose id is the JSON string "42": Pydantic
lax mode coerces it to the integer 42, so the record is accepted and the
resulting FlatRow's `game_id` is the JSON integer 42, which is not equal to
the input record's id field, the JSON string "42". -/
theorem c5_string_id_counterexample :
    ((validateGame strIdRec).toOption.bind
        (fun g => (flatten (gameDump g)).toOption)).map FlatRow.game_id
      = some (some (.int 42)) ∧
    dictGet strIdFields "id" = some (.str "42") ∧
    JValue.int 42 ≠ JValue.str "42" :=
  ⟨rfl, rfl, fun hcon => JValue.noConfusion hcon⟩

/-- **C5** (amended).  For every raw record accepted by `validate`,
flattening the serialized-and-reloaded `Game` yields a FlatRow whose
`game_id` is the JSON integer holding the validated game's id — the value
the input id field coerced to.  When the input record's id field is itself
a JSON integer, this equals the input id exactly; the identity can fail
only for coerced (non-integer JSON) id values such as digit strings (see
the counterexample). -/
theorem c5_round_trip_id (rec : JValue) (g : Game)
    (h : validateGame rec = .ok g) :
    ∃ row, flatten (gameDump g) = .ok row ∧ row.game_id = some (.int g.id) ∧
      ∀ fs n, rec = .obj fs → dictGet fs "id" = some (.int n) → g.id = n := by
  refine ⟨_, rfl, rfl, ?_⟩
  intro fs n hrec hid
  subst hrec
  have hreq : reqInt fs "id" "id" = Except.ok n := by simp [reqInt, hid, pyInt]
  simp only [validateGame, except_bind_ok_iff, except_pure_eq] at h
  obtain ⟨idv, hidv, h⟩ := h
  have hn : idv = n := by
    rw [hidv] at hreq
    exact Except.ok.inj hreq
  iterate 27 obtain ⟨_, -, h⟩ := h
  rw [eq_comm] at h
  cases hht : dictGet fs "home_team" with
  | none =>
    simp only [hht] at h
    simp [except_bind_error] at h
  | some htv =>
    simp only [hht] at h
    cases hteam : validateTeam "home_team" htv with
    | error e2 =>
      simp only [hteam] at h
      simp [except_bind_error] at h
    | ok ht =>
      simp only [hteam] at h
      cases hvt : dictGet fs "visitor_team" with
      | none =>
        simp only [hvt] at h
        simp [except_bind_ok, except_bind_error] at h
      | some vtv =>
        simp only [hvt] at h
        cases hvteam : validateTeam "visitor_team" vtv with
        | error e2 =>
          simp only [hvteam] at h
          simp [except_bind_ok, except_bind_error] at h
        | ok vt =>
          simp only [hvteam, except_bind_ok] at h
          split at h
          · simp at h
          · rw [Except.ok.inj h]
            exact hn

set_option maxRecDepth 400000 in
/-- **C5** (witness): the amended theorem at the valid example record,
whose id is the JSON integer 99. -/
theorem c5_round_trip_id_witness :
    ∃ row, flatten (gameDump
        { id := 99, date := ⟨2021, 1, 15⟩, season := 2021, status := "Final",
          period := 4, time := "Final", postseason := false,
          home_team_score := 110, visitor_team_score := 90,
          datetime := "2021-01-15T00:00:00Z",
          home_q1 := none, home_q2 := none, home_q3 := none, home_q4 := none,
          home_ot1 := none, home_ot2 := none, home_ot3 := none,
          home_timeouts_remaining := none, home_in_bonus := none,
          visitor_q1 := none, visitor_q2 := none, visitor_q3 := none,
          visitor_q4 := none, visitor_ot1 := none, visitor_ot2 := none,
          visitor_ot3 := none, visitor_timeouts_remaining := none,
          visitor_in_bonus := none,
          home_team := ⟨1, "East", "Atlantic", "Boston", "Celtics",
            "Boston Celtics", "BOS"⟩,
          visitor_team := ⟨2, "West", "Pacific", "Los Angeles", "Lakers",
            "Los Angeles Lakers", "LAL"⟩ }) = .ok row ∧
      row.game_id = some (.int 99) ∧
      ∀ fs n, validRec = .obj fs → dictGet fs "id" = some (.int n) → (99 : Int) = n :=
  c5_round_trip_id validRec _ rfl

theorem reqInt_congr (fs1 fs2 : List (String × JValue)) (k loc : String)
    (h : dictGet fs1 k = dictGet fs2 k) : reqInt fs1 k loc = reqInt fs2 k loc := by
  unfold reqInt
  rw [h]

theorem reqIntGE0_congr (fs1 fs2 : List (String × JValue)) (k loc : String)
    (h : dictGet fs1 k = dictGet fs2 k) : reqIntGE0 fs1 k loc = reqIntGE0 fs2 k loc := by
  unfold reqIntGE0
  rw [reqInt_congr fs1 fs2 k loc h]

theorem reqStr_congr (fs1 fs2 : List (String × JValue)) (k loc : String)
    (h : dictGet fs1 k = dictGet fs2 k) : reqStr fs1 k loc = reqStr fs2 k loc := by
  unfold reqStr
  rw [h]

theorem reqBool_congr (fs1 fs2 : List (String × JValue)) (k loc : String)
    (h : dictGet fs1 k = dictGet fs2 k) : reqBool fs1 k loc = reqBool fs2 k loc := by
  unfold reqBool
  rw [h]

theorem reqDate_congr (fs1 fs2 : List (String × JValue)) (k loc : String)
    (h : dictGet fs1 k = dictGet fs2 k) : reqDate fs1 k loc = reqDate fs2 k loc := by
  unfold reqDate
  rw [h]

theorem reqDatetime_congr (fs1 fs2 : List (String × JValue)) (k loc : String)
    (h : dictGet fs1 k = dictGet fs2 k) : reqDatetime fs1 k loc = reqDatetime fs2 k loc := by
  unfold reqDatetime
  rw [h]

theorem optIntGE0_congr (fs1 fs2 : List (String × JValue)) (k loc : String)
    (h : dictGet fs1 k = dictGet fs2 k) : optIntGE0 fs1 k loc = optIntGE0 fs2 k loc := by
  unfold optIntGE0
  rw [h]

theorem optBool_congr (fs1 fs2 : List (String × JValue)) (k loc : String)
    (h : dictGet fs1 k = dictGet fs2 k) : optBool fs1 k loc = optBool fs2 k loc := by
  unfold optBool
  rw [h]

/-- Appending only unknown keys to a team object leaves its validation
unchanged (the validator reads only the seven declared keys). -/
theorem validateTeam_extras (loc : String) (tf e : List (String × JValue))
    (h : ∀ p ∈ e, p.1 ∉ teamKeys) :
    validateTeam loc (.obj (tf ++ e)) = validateTeam loc (.obj tf) := by
  have hk : ∀ k, k ∈ teamKeys → dictGet (tf ++ e) k = dictGet tf k :=
    fun k hkm => dictGet_append_of_not_mem tf e k (fun p hp hpk => h p hp (hpk ▸ hkm))
  simp only [validateTeam,
    reqInt_congr (tf ++ e) tf "id" (loc ++ ".id") (hk "id" (by decide)),
    reqStr_congr (tf ++ e) tf "conference" (loc ++ ".conference") (hk "conference" (by decide)),
    reqStr_congr (tf ++ e) tf "division" (loc ++ ".division") (hk "division" (by decide)),
    reqStr_congr (tf ++ e) tf "city" (loc ++ ".city") (hk "city" (by decide)),
    reqStr_congr (tf ++ e) tf "name" (loc ++ ".name") (hk "name" (by decide)),
    reqStr_congr (tf ++ e) tf "full_name" (loc ++ ".full_name") (hk "full_name" (by decide)),
    reqStr_congr (tf ++ e) tf "abbreviation" (loc ++ ".abbreviation")
      (hk "abbreviation" (by decide))]

theorem dictGet_teams_cons (a b a' b' : JValue) (x y : List (String × JValue))
    (k : String) (hk1 : "home_team" ≠ k) (hk2 : "visitor_team" ≠ k)
    (h : dictGet x k = dictGet y k) :
    dictGet (("home_team", a) :: ("visitor_team", b) :: x) k
      = dictGet (("home_team", a') :: ("visitor_team", b') :: y) k := by
  simp [dictGet_cons, hk1, hk2, h]

/-- **C8**.  Adding arbitrary unknown top-level fields to a raw record, or
unknown nested fields to its embedded team objects, never changes the
validation outcome: the extended record validates exactly when the original
does, to the very same `Game` — so a record satisfying the required-field,
type, range and distinct-team constraints still validates, with the unknown
fields discarded (`extra="ignore"`). -/
theorem c8_unknown_fields_ignored (fields tf vf eT eH eV : List (String × JValue))
    (hT : ∀ p ∈ eT, p.1 ∉ gameKeys) (hH : ∀ p ∈ eH, p.1 ∉ teamKeys)
    (hV : ∀ p ∈ eV, p.1 ∉ teamKeys) :
    validateGame (mkRecExt fields tf vf eT eH eV) = validateGame (mkRec fields tf vf) := by
  have htop : ∀ k, k ∈ gameKeys → dictGet (fields ++ eT) k = dictGet fields k :=
    fun k hkm => dictGet_append_of_not_mem fields eT k (fun p hp hpk => hT p hp (hpk ▸ hkm))
  have E : ∀ k, k ∈ gameKeys → "home_team" ≠ k → "visitor_team" ≠ k →
      dictGet (("home_team", JValue.obj (tf ++ eH)) ::
          ("visitor_team", JValue.obj (vf ++ eV)) :: (fields ++ eT)) k
        = dictGet (("home_team", JValue.obj tf) ::
            ("visitor_team", JValue.obj vf) :: fields) k :=
    fun k hkm h1 h2 => dictGet_teams_cons _ _ _ _ _ _ k h1 h2 (htop k hkm)
  simp only [mkRecExt, mkRec, validateGame,
    reqInt_congr _ _ "id" "id" (E "id" (by decide) (by decide) (by decide)),
    reqDate_congr _ _ "date" "date" (E "date" (by decide) (by decide) (by decide)),
    reqInt_congr _ _ "season" "season" (E "season" (by decide) (by decide) (by decide)),
    reqStr_congr _ _ "status" "status" (E "status" (by decide) (by decide) (by decide)),
    reqIntGE0_congr _ _ "period" "period" (E "period" (by decide) (by decide) (by decide)),
    reqStr_congr _ _ "time" "time" (E "time" (by decide) (by decide) (by decide)),
    reqBool_congr _ _ "postseason" "postseason"
      (E "postseason" (by decide) (by decide) (by decide)),
    reqIntGE0_congr _ _ "home_team_score" "home_team_score"
      (E "home_team_score" (by decide) (by decide) (by decide)),
    reqIntGE0_congr _ _ "visitor_team_score" "visitor_team_score"
      (E "visitor_team_score" (by decide) (by decide) (by decide)),
    reqDatetime_congr _ _ "datetime" "datetime"
      (E "datetime" (by decide) (by decide) (by decide)),
    optIntGE0_congr _ _ "home_q1" "home_q1" (E "home_q1" (by decide) (by decide) (by decide)),
    optIntGE0_congr _ _ "home_q2" "home_q2" (E "home_q2" (by decide) (by decide) (by decide)),
    optIntGE0_congr _ _ "home_q3" "home_q3" (E "home_q3" (by decide) (by decide) (by decide)),
    optIntGE0_congr _ _ "home_q4" "home_q4" (E "home_q4" (by decide) (by decide) (by decide)),
    optIntGE0_congr _ _ "home_ot1" "home_ot1"
      (E "home_ot1" (by decide) (by decide) (by decide)),
    optIntGE0_congr _ _ "home_ot2" "home_ot2"
      (E "home_ot2" (by decide) (by decide) (by decide)),
    optIntGE0_congr _ _ "home_ot3" "home_ot3"
      (E "home_ot3" (by decide) (by decide) (by decide)),
    optIntGE0_congr _ _ "home_timeouts_remaining" "home_timeouts_remaining"
      (E "home_timeouts_remaining" (by decide) (by decide) (by decide)),
    optBool_congr _ _ "home_in_bonus" "home_in_bonus"
      (E "home_in_bonus" (by decide) (by decide) (by decide)),
    optIntGE0_congr _ _ "visitor_q1" "visitor_q1"
      (E "visitor_q1" (by decide) (by decide) (by decide)),
    optIntGE0_congr _ _ "visitor_q2" "visitor_q2"
      (E "visitor_q2" (by decide) (by decide) (by decide)),
    optIntGE0_congr _ _ "visitor_q3" "visitor_q3"
      (E "visitor_q3" (by decide) (by decide) (by decide)),
    optIntGE0_congr _ _ "visitor_q4" "visitor_q4"
      (E "visitor_q4" (by decide) (by decide) (by decide)),
    optIntGE0_congr _ _ "visitor_ot1" "visitor_ot1"
      (E "visitor_ot1" (by decide) (by decide) (by decide)),
    optIntGE0_congr _ _ "visitor_ot2" "visitor_ot2"
      (E "visitor_ot2" (by decide) (by decide) (by decide)),
    optIntGE0_congr _ _ "visitor_ot3" "visitor_ot3"
      (E "visitor_ot3" (by decide) (by decide) (by decide)),
    optIntGE0_congr _ _ "visitor_timeouts_remaining" "visitor_timeouts_remaining"
      (E "visitor_timeouts_remaining" (by decide) (by decide) (by decide)),
    optBool_congr _ _ "visitor_in_bonus" "visitor_in_bonus"
      (E "visitor_in_bonus" (by decide) (by decide) (by decide)),
    show dictGet (("home_team", JValue.obj (tf ++ eH)) ::
        ("visitor_team", JValue.obj (vf ++ eV)) :: (fields ++ eT)) "home_team"
      = some (JValue.obj (tf ++ eH)) from rfl,
    show dictGet (("home_team", JValue.obj (tf ++ eH)) ::
        ("visitor_team", JValue.obj (vf ++ eV)) :: (fields ++ eT)) "visitor_team"
      = some (JValue.obj (vf ++ eV)) from rfl,
    show dictGet (("home_team", JValue.obj tf) ::
        ("visitor_team", JValue.obj vf) :: fields) "home_team"
      = some (JValue.obj tf) from rfl,
    show dictGet (("home_team", JValue.obj tf) ::
        ("visitor_team", JValue.obj vf) :: fields) "visitor_team"
      = some (JValue.obj vf) from rfl,
    validateTeam_extras "home_team" tf eH hH,
    validateTeam_extras "visitor_team" vf eV hV]

set_option maxRecDepth 400000 in
/-- **C8** (witness): the theorem at the valid example record, extended
with an unknown top-level field and an unknown nested team field; the base
record indeed validates. -/
theorem c8_unknown_fields_ignored_witness :
    validateGame (mkRecExt validScalarFields exTeamHome exTeamVisitor
        [("arena", .str "TD Garden")] [("mascot", .str "Lucky")] []) =
      validateGame (mkRec validScalarFields exTeamHome exTeamVisitor) ∧
    validatesOk (mkRec validScalarFields exTeamHome exTeamVisitor) = true :=
  ⟨c8_unknown_fields_ignored validScalarFields exTeamHome exTeamVisitor
      [("arena", .str "TD Garden")] [("mascot", .str "Lucky")] []
      (by decide) (by decide) (by decide), rfl⟩

end NBAPipeline
